import Mathlib

/-!
Shallow embedding of the `ci_connection` scripts of the quoctruong/actions
repository (wait_for_connection.py, preserve_run_state.py, get_labels.py,
utils.py), together with proofs about the embedded operations.

Conventions used throughout:
* a process environment (`os.environ`) is an association list of variable
  names to values;
* Python exceptions are modelled by the `PyExc` type, and fallible
  operations return `Except PyExc _`;
* operating-system effects (file writes, HTTP requests) are passed in as
  explicit oracle functions, so every definition stays executable;
* Python string operations are re-implemented over `String.data` (lists of
  characters), which the kernel can evaluate on concrete inputs; the inputs
  appearing in the development are ASCII, where these models agree with
  Python's semantics.
-/

/-- Python exceptions that the embedded code can raise. -/
inductive PyExc where
  | typeError
  | valueError
  | fileNotFoundError
  | permissionError
  | urlError
deriving DecidableEq, Repr

deriving instance DecidableEq for Except

/-- A process environment: association list of variable names to values
(model of `os.environ`). -/
def Env : Type := List (String × String)

/-- `os.getenv(name)` without a default: the first binding of `name`. -/
def getenv (env : Env) (name : String) : Option String :=
  (env.find? (fun p => p.1 == name)).map (fun p => p.2)

/-- `os.getenv(name, "")`: lookup with an empty-string default. -/
def getenvD (env : Env) (name : String) : String :=
  (getenv env name).getD ""

/-- Python `str.lower` (ASCII model). -/
def pyLower (s : String) : String :=
  String.mk (s.data.map Char.toLower)

/-- Python falsiness of a string: empty strings are falsy. -/
def pyIsEmpty (s : String) : Bool :=
  s.data.isEmpty

/-- Python `str.strip()`: drop whitespace from both ends. -/
def pyStrip (s : String) : String :=
  String.mk
    (((s.data.dropWhile Char.isWhitespace).reverse.dropWhile Char.isWhitespace).reverse)

/-- Split a character list on a separator character; like Python
`str.split(sep)`, the empty input yields one empty field. -/
def splitOnCharList (sep : Char) : List Char → List (List Char)
  | [] => [[]]
  | c :: cs =>
    let r := splitOnCharList sep cs
    if c == sep then [] :: r
    else
      match r with
      | [] => [[c]]
      | h :: t => (c :: h) :: t

/-- Python `str.split(sep)` for a one-character separator. -/
def pySplit (s : String) (sep : Char) : List String :=
  (splitOnCharList sep s.data).map String.mk

/-- First `n` characters of a string (model of reading at most `n` bytes of
ASCII data). -/
def pyTake (s : String) (n : Nat) : String :=
  String.mk (s.data.take n)

/-- Whether `p` is a prefix of `s` (Python `str.startswith`). -/
def pyStartsWith (s p : String) : Bool :=
  s.data.take p.data.length == p.data

/-- Accumulate decimal digits; `none` on the first non-digit. -/
def parseDigitsAux : List Char → Nat → Option Nat
  | [], acc => some acc
  | c :: cs, acc =>
    if c.isDigit then parseDigitsAux cs (acc * 10 + (c.toNat - 48))
    else none

/-- Python `int(s)` on a string: optional sign then decimal digits. -/
def pyIntParse (s : String) : Option Int :=
  match s.data with
  | [] => none
  | c :: cs =>
    if c == '-' then
      if cs.isEmpty then none
      else (parseDigitsAux cs 0).map (fun n => -(n : Int))
    else if c == '+' then
      if cs.isEmpty then none
      else (parseDigitsAux cs 0).map (fun n => (n : Int))
    else (parseDigitsAux (c :: cs) 0).map (fun n => (n : Int))

/-- Python `int(...)` applied to an `os.getenv` result: `int(None)` raises
`TypeError`, a non-integer string raises `ValueError`. -/
def pyIntOfEnv (v : Option String) : Except PyExc Int :=
  match v with
  | none => Except.error PyExc.typeError
  | some s =>
    match pyIntParse s with
    | none => Except.error PyExc.valueError
    | some n => Except.ok n

/-- Lexicographic comparison of character lists by code point. -/
def charListLt : List Char → List Char → Bool
  | [], [] => false
  | [], _ :: _ => true
  | _ :: _, [] => false
  | a :: as, b :: bs =>
    if a.toNat < b.toNat then true
    else if b.toNat < a.toNat then false
    else charListLt as bs

/-- Python `<` on strings (code-point lexicographic order). -/
def strLt (a b : String) : Bool := charListLt a.data b.data

/-- Insert a string into an ascending list (helper for `sortedSet`). -/
def insertStr (x : String) : List String → List String
  | [] => [x]
  | y :: ys => if strLt x y then x :: y :: ys else y :: insertStr x ys

/-- Ascending insertion sort on strings. -/
def sortStrs : List String → List String
  | [] => []
  | x :: xs => insertStr x (sortStrs xs)

/-- Remove duplicates, keeping the first occurrence of each string. -/
def dedupStrs : List String → List String
  | [] => []
  | x :: xs => x :: (dedupStrs xs).filter (fun y => y != x)

/-- Python `sorted(set(xs))` for strings: the distinct elements in ascending
order. -/
def sortedSet (xs : List String) : List String :=
  sortStrs (dedupStrs xs)

/-- The negative spellings recognised by `_is_true_like_env_var`
(wait_for_connection.py line 40). -/
def negative_choices : List String :=
  ["0", "false", "n", "no", "none", "null", "n/a"]

/-- `_is_true_like_env_var` from wait_for_connection.py (lines 38-43):
the lower-cased value is truthy iff it is non-empty and not one of the
negative spellings. -/
def is_true_like_env_var (env : Env) (varName : String) : Bool :=
  let varVal := pyLower (getenvD env varName)
  if !pyIsEmpty varVal && !(negative_choices.contains varVal) then
    true
  else
    false

/-- Label constant from wait_for_connection.py line 33. -/
def HALT_ALWAYS_LABEL : String := "CI Connection Halt - Always"

/-- Label constant from wait_for_connection.py line 34. -/
def HALT_ON_RETRY_LABEL : String := "CI Connection Halt - On Retry"

/-- Label constant from wait_for_connection.py line 35. -/
def HALT_ON_ERROR_LABEL : String := "CI Connection Halt - On Error"

/-- `should_halt_for_connection` from wait_for_connection.py (lines 46-107).
`labels` is the list returned by `retrieve_labels`, and `stateFileExists`
models `os.path.exists(utils.STATE_INFO_PATH)`.  The third check mirrors the
source literally: `if HALT_ON_ERROR_LABEL and os.path.exists(...)` tests the
truthiness of the constant string (a Python string is truthy iff non-empty),
not membership of the label in `labels`.  The retry check mirrors
`int(os.getenv("GITHUB_RUN_ATTEMPT"))`, which raises when the variable is
absent. -/
def should_halt_for_connection (waitRegardless : Bool) (env : Env)
    (labels : List String) (stateFileExists : Bool) : Except PyExc Bool :=
  if waitRegardless then Except.ok true
  else if is_true_like_env_var env "HALT_DISPATCH_INPUT" then Except.ok true
  else if !pyIsEmpty HALT_ON_ERROR_LABEL && stateFileExists then Except.ok true
  else if labels.contains HALT_ALWAYS_LABEL then Except.ok true
  else
    match pyIntOfEnv (getenv env "GITHUB_RUN_ATTEMPT") with
    | Except.error e => Except.error e
    | Except.ok attempt =>
      if attempt > 1 && labels.contains HALT_ON_RETRY_LABEL then Except.ok true
      else Except.ok false

/-- Base denylist from preserve_run_state.py line 37. -/
def VARS_DENYLIST : List String := ["GITHUB_TOKEN"]

/-- Configuration-variable name from preserve_run_state.py line 41. -/
def ENV_DENYLIST_VAR_NAME : String := "GML_ACTIONS_DEBUG_VARS_DENYLIST"

/-- ASCII model of Python's regex class `\w`: letters, digits, underscore. -/
def isWordChar (c : Char) : Bool :=
  c.isAlphanum || c == '_'

/-- Model of `re.search(r"[^\w,]", s)` returning whether a match exists:
true iff some character is neither a word character nor a comma. -/
def hasNonWordCommaChar (s : String) : Bool :=
  s.data.any (fun c => !(isWordChar c || c == ','))

/-- Result of `_get_names_from_env_vars_list`: the parsed names together with
whether the function logged its invalid-characters error message. -/
structure ParseNamesResult where
  names : List String
  errorLogged : Bool
deriving DecidableEq, Repr

/-- `_get_names_from_env_vars_list` from preserve_run_state.py (lines
105-128), in the `raise_on_invalid_value=False` form used by every caller in
the repository.  It mirrors the source exactly: the `re.search` result (a
match precisely when an invalid character IS present) is bound to `is_valid`,
the error branch runs under `if not is_valid` (so when NO invalid character
is present), and the comma-split names are parsed and returned in either
case. -/
def get_names_from_env_vars_list (envVarList : String) : ParseNamesResult :=
  let envVarsList := pyStrip envVarList
  if pyIsEmpty envVarsList then ⟨[], false⟩
  else
    let isValid := hasNonWordCommaChar envVarsList
    if !isValid then
      ⟨(pySplit envVarsList ',').map pyStrip, true⟩
    else
      ⟨(pySplit envVarsList ',').map pyStrip, false⟩

/-- `add_denylist_vars_from_env` from preserve_run_state.py (lines 131-138):
extend `varList` with the names parsed from the configuration variable, then
deduplicate and sort.  The second component reports whether the parser logged
its error message. -/
def add_denylist_vars_from_env (env : Env) (envListVarName : String)
    (varList : List String) : List String × Bool :=
  let listFromEnv := getenvD env envListVarName
  let parsed := get_names_from_env_vars_list listFromEnv
  (sortedSet (varList ++ parsed.names), parsed.errorLogged)

/-- A single-quote character, used by the model of Python `repr`. -/
def squote : String := String.mk [Char.ofNat 39]

/-- Model of Python `repr` on the simple strings used here: wrap in single
quotes. -/
def pyRepr (s : String) : String := squote ++ s ++ squote

/-- One line of the env file: `f"{k}={v!r}"`. -/
def env_line (p : String × String) : String :=
  p.1 ++ "=" ++ pyRepr p.2

/-- Model of `json.dumps` on a string-to-string mapping. -/
def jsonDumps (pairs : List (String × String)) : String :=
  "\x7b" ++
    String.intercalate ", "
      (pairs.map (fun p => "\"" ++ p.1 ++ "\": \"" ++ p.2 ++ "\"")) ++
    "\x7d"

/-- JSON rendering of an optional string (`None` becomes `null`). -/
def jsonOpt (s : Option String) : String :=
  match s with
  | none => "null"
  | some v => "\"" ++ v ++ "\""

/-- The `StateInfo` TypedDict from preserve_run_state.py (lines 44-47). -/
structure StateInfo where
  shell_command : Option String
  directory : Option String
  env : Option (List (String × String))
deriving DecidableEq, Repr

/-- Model of `json.dump` applied to a `StateInfo` value. -/
def stateInfoJson (si : StateInfo) : String :=
  "\x7b\"shell_command\": " ++ jsonOpt si.shell_command ++
    ", \"directory\": " ++ jsonOpt si.directory ++
    ", \"env\": " ++
    (match si.env with
     | none => "null"
     | some e => jsonDumps e) ++
  "\x7d"

/-- An oracle for the operating-system file layer: the outcome of the
`os.makedirs` + `open(..., "w")` + `write` sequence at a given path
(`.ok ()` when the write succeeds, `.error e` when the OS raises). -/
def FsWrite : Type := String → Except PyExc Unit

/-- Outcome of `save_env_state`: the Python return value (or the exception
that propagated), the file writes performed as (path, content) pairs, the
warnings logged (the source logs none), and whether the denylist parser
logged its error message. -/
structure EnvSaveOutcome where
  result : Except PyExc (List (String × String))
  writes : List (String × String)
  warnings : List String
  denyErrorLogged : Bool
deriving DecidableEq, Repr

/-- `save_env_state` from preserve_run_state.py (lines 141-168).  An
`outPath` of `none` models Python `out_path=None`: the `if out_path:` guard
skips all file access.  Any exception from the file layer propagates to the
caller unchanged; the function contains no exception handling and logs no
warnings. -/
def save_env_state (fsWrite : FsWrite) (env : Env) (outPath : Option String)
    (denylist : List String) (checkEnvListsForAdditionalVars : Bool) :
    EnvSaveOutcome :=
  let final : List String × Bool :=
    if checkEnvListsForAdditionalVars then
      add_denylist_vars_from_env env ENV_DENYLIST_VAR_NAME denylist
    else (denylist, false)
  let outVars : List (String × String) :=
    env.filter (fun p => !(final.1.contains p.1))
  let outStr := String.intercalate "\n" (outVars.map env_line)
  match outPath with
  | none => ⟨Except.ok outVars, [], [], final.2⟩
  | some p =>
    match fsWrite p with
    | Except.ok _ => ⟨Except.ok outVars, [(p, outStr)], [], final.2⟩
    | Except.error e => ⟨Except.error e, [], [], final.2⟩

/-- Outcome of `save_current_execution_info`: the returned `StateInfo` (or
the exception that propagated), the file writes, and the warnings logged
(the source logs none). -/
structure ExecInfoOutcome where
  result : Except PyExc StateInfo
  writes : List (String × String)
  warnings : List String
deriving DecidableEq, Repr

/-- `save_current_execution_info` from preserve_run_state.py (lines
171-185): opens `outPath` for writing and dumps the `StateInfo` JSON.  Any
exception from the file layer propagates to the caller unchanged; the
function contains no exception handling and logs no warnings. -/
def save_current_execution_info (fsWrite : FsWrite)
    (shellCommand : Option String) (directory : Option String)
    (envState : Option (List (String × String))) (outPath : String) :
    ExecInfoOutcome :=
  match fsWrite outPath with
  | Except.error e => ⟨Except.error e, [], []⟩
  | Except.ok _ =>
    let output : StateInfo := ⟨shellCommand, directory, envState⟩
    ⟨Except.ok output, [(outPath, stateInfoJson output)], []⟩

/-- `os.path.join` for the relative second components used here. -/
def joinPath (a b : String) : String := a ++ "/" ++ b

/-- `utils.STATE_OUT_DIR` (utils.py line 24), with `$HOME` passed in. -/
def STATE_OUT_DIR (home : String) : String :=
  joinPath home ".workflow_state"

/-- `utils.STATE_EXEC_INFO_FILENAME` (utils.py line 26). -/
def STATE_EXEC_INFO_FILENAME : String := "execution_state.json"

/-- `utils.STATE_INFO_PATH` (utils.py line 27). -/
def STATE_INFO_PATH (home : String) : String :=
  joinPath (STATE_OUT_DIR home) STATE_EXEC_INFO_FILENAME

/-- `utils.STATE_ENV_FILENAME` (utils.py line 29). -/
def STATE_ENV_FILENAME : String := "env.txt"

/-- `utils.STATE_ENV_OUT_PATH` (utils.py line 30). -/
def STATE_ENV_OUT_PATH (home : String) : String :=
  joinPath (STATE_OUT_DIR home) STATE_ENV_FILENAME

/-- The CLI arguments of preserve_run_state.py (`parse_cli_args`, lines
50-102), as a record. -/
structure CliArgs where
  shell_command : Option String
  execution_dir : Option String
  save_env : Bool
  env_vars_denylist : Option String
  out_dir : Option String
deriving DecidableEq, Repr

/-- Python `list.extend(s)` where `s` is a string (or `None`, via
`s or []`): a string is iterated character by character, so each character
is appended as a one-character element. -/
def extendWithChars (xs : List String) (s : Option String) : List String :=
  xs ++ ((s.getD "").data.map (fun c => String.mk [c]))

/-- Python `a or b` on optional strings: `a` unless it is `None` or empty. -/
def pyOrOpt (a : Option String) (b : Option String) : Option String :=
  match a with
  | none => b
  | some s => if pyIsEmpty s then b else some s

/-- Python `a or b` where `a` is an optional string and `b` a string: `b`
when `a` is `None` or the empty string (both falsy), `a` otherwise. -/
def pyOrStr (a : Option String) (b : String) : String :=
  match a with
  | none => b
  | some s => if pyIsEmpty s then b else s

/-- Outcome of `save_all_info`: overall result and accumulated file
writes. -/
structure SaveAllOutcome where
  result : Except PyExc Unit
  writes : List (String × String)
deriving DecidableEq, Repr

/-- `save_all_info` from preserve_run_state.py (lines 188-205): resolves the
output directory as `args.out_dir or utils.STATE_OUT_DIR` (so a `None` or
empty override falls back to `STATE_OUT_DIR`), saves the env file into that directory when `--save-env`
is on, then calls `save_current_execution_info` with its DEFAULT `out_path`,
i.e. the fixed `STATE_INFO_PATH`. -/
def save_all_info (fsWrite : FsWrite) (env : Env) (home : String)
    (cwd : String) (args : CliArgs) : SaveAllOutcome :=
  let outDir := pyOrStr args.out_dir (STATE_OUT_DIR home)
  let shellCommand := pyOrOpt args.shell_command (getenv env "BASH_COMMAND")
  let directory := some ((pyOrOpt args.execution_dir (some cwd)).getD cwd)
  if args.save_env then
    let denylistVars := extendWithChars VARS_DENYLIST args.env_vars_denylist
    let envOutcome :=
      save_env_state fsWrite env (some (joinPath outDir STATE_ENV_FILENAME))
        denylistVars true
    match envOutcome.result with
    | Except.error e => ⟨Except.error e, envOutcome.writes⟩
    | Except.ok envState =>
      let execOutcome :=
        save_current_execution_info fsWrite shellCommand directory
          (some envState) (STATE_INFO_PATH home)
      ⟨execOutcome.result.map (fun _ => ()), envOutcome.writes ++ execOutcome.writes⟩
  else
    let execOutcome :=
      save_current_execution_info fsWrite shellCommand directory
        (some []) (STATE_INFO_PATH home)
    ⟨execOutcome.result.map (fun _ => ()), execOutcome.writes⟩

/-- `WaitInfo.pre_connect_timeout` (wait_for_connection.py line 111),
in seconds. -/
def pre_connect_timeout : Nat := 10 * 60

/-- `WaitInfo.re_connect_timeout` (wait_for_connection.py line 113),
in seconds. -/
def re_connect_timeout : Nat := 15 * 60

/-- The mutable fields of class `WaitInfo` (wait_for_connection.py lines
110-118). -/
structure WaitState where
  timeout : Nat
  lastTime : Nat
  waitingForClose : Bool
  stopEventSet : Bool
deriving DecidableEq, Repr

/-- The `WaitInfo` state at server start. -/
def initWaitState (startTime : Nat) : WaitState :=
  { timeout := pre_connect_timeout
    lastTime := startTime
    waitingForClose := false
    stopEventSet := false }

/-- Effect of handling one wire message: the updated `WaitInfo` state, the
optional reply written back on the connection, and any file writes. -/
structure MsgEffect where
  state : WaitState
  reply : Option String
  fileWrites : List (String × String)
deriving DecidableEq, Repr

/-- The per-message dispatch of `process_messages` (wait_for_connection.py
lines 125-146).  `now` models `time.time()` at handling time.  The
`env_state_requested` branch calls `save_env_state` with `out_path=None`
(its default denylist and env-list check), JSON-encodes the returned
mapping, and replies with it newline-terminated; an unknown message is
logged and ignored. -/
def handle_message (env : Env) (now : Nat) (s : WaitState) (message : String) :
    MsgEffect :=
  if message == "keep_alive" then
    ⟨{ s with lastTime := now }, none, []⟩
  else if message == "connection_closed" then
    ⟨{ s with waitingForClose := true, stopEventSet := true }, none, []⟩
  else if message == "connection_established" then
    ⟨{ s with lastTime := now, timeout := re_connect_timeout }, none, []⟩
  else if message == "env_state_requested" then
    let saved := save_env_state (fun _ => Except.ok ()) env none VARS_DENYLIST true
    let envData := saved.result.toOption.getD []
    let jsonData := jsonDumps envData
    ⟨s, some (jsonData ++ "\n"), saved.writes⟩
  else
    ⟨s, none, []⟩

/-- `reader.read(1024)` on an accepted connection, where `chunks` lists the
byte chunks the peer delivers over the connection's lifetime: a single read
returns at most 1024 bytes — the first delivered chunk, truncated — and is
never repeated by the handler. -/
def read1024 (chunks : List String) : String :=
  pyTake (chunks.headD "") 1024

/-- `data.decode().strip().splitlines()` followed by the `if m` filter
(wait_for_connection.py line 124): the non-empty newline-separated lines. -/
def messages_of (data : String) : List String :=
  (pySplit (pyStrip data) '\n').filter (fun m => !pyIsEmpty m)

/-- The `for message in messages` loop of `process_messages`: threads the
state through `handle_message` and accumulates replies, file writes, and the
messages dispatched, in order. -/
def process_loop (env : Env) (now : Nat) (s : WaitState) :
    List String → WaitState × List String × List (String × String) × List String
  | [] => (s, [], [], [])
  | m :: rest =>
    let eff := handle_message env now s m
    let r := process_loop env now eff.state rest
    (r.1, eff.reply.toList ++ r.2.1, eff.fileWrites ++ r.2.2.1, m :: r.2.2.2)

/-- Outcome of one call to `process_messages` for an accepted connection. -/
structure ConnOutcome where
  state : WaitState
  replies : List String
  fileWrites : List (String × String)
  dispatched : List String
  closed : Bool
deriving DecidableEq, Repr

/-- `process_messages` from wait_for_connection.py (lines 121-147): one
`read(1024)`, split into messages, dispatch each, then `writer.close()`. -/
def process_messages (env : Env) (now : Nat) (s : WaitState)
    (chunks : List String) : ConnOutcome :=
  let data := read1024 chunks
  let msgs := messages_of data
  let r := process_loop env now s msgs
  ⟨r.1, r.2.1, r.2.2.1, r.2.2.2, true⟩

/-- The filtered environment the server replies with: `os.environ` minus the
resolved denylist (the `out_vars` of `save_env_state` at its default
arguments). -/
def filtered_env (env : Env) : List (String × String) :=
  env.filter
    (fun p =>
      !((add_denylist_vars_from_env env ENV_DENYLIST_VAR_NAME VARS_DENYLIST).1.contains p.1))

/-- The exact reply `process_messages` sends for one `env_state_requested`
message. -/
def env_state_reply (env : Env) : String :=
  jsonDumps (filtered_env env) ++ "\n"

/-- `shutil.rmtree` on the state directory: removes it when present, raises
`FileNotFoundError` when missing.  Returns the outcome and whether the
directory exists afterwards. -/
def rmtree (dirExists : Bool) : Except PyExc Unit × Bool :=
  if dirExists then (Except.ok (), false)
  else (Except.error PyExc.fileNotFoundError, false)

/-- The `finally` block of `main` (wait_for_connection.py lines 211-216):
run `rmtree` and catch exactly `FileNotFoundError`. -/
def delete_state_data (dirExists : Bool) : Except PyExc Unit × Bool :=
  let r := rmtree dirExists
  match r.1 with
  | Except.error PyExc.fileNotFoundError => (Except.ok (), r.2)
  | other => (other, r.2)

/-- The `try` body of `main` (wait_for_connection.py lines 205-209): the
halt decision, then — only when it returns true — the server run.
`haltDecision` is the outcome of `should_halt_for_connection` and
`serverRun` the outcome of `asyncio.run(wait_for_connection())`; a false
decision only logs. -/
def wait_main_body (haltDecision : Except PyExc Bool)
    (serverRun : Except PyExc Unit) : Except PyExc Unit :=
  match haltDecision with
  | Except.error e => Except.error e
  | Except.ok true => serverRun
  | Except.ok false => Except.ok ()

/-- Outcome of `main`: the overall result, whether the cleanup ran, and
whether the state directory still exists afterwards. -/
structure MainOutcome where
  result : Except PyExc Unit
  cleanupRan : Bool
  stateDirRemains : Bool
deriving DecidableEq, Repr

/-- `main` from wait_for_connection.py (lines 204-216), as `try/finally`
semantics: the `finally` block always runs, and per Python an exception
escaping the `finally` block would replace the body's outcome. -/
def wait_main (body : Except PyExc Unit) (stateDirExists : Bool) :
    MainOutcome :=
  let fin := delete_state_data stateDirExists
  match fin.1 with
  | Except.error e => ⟨Except.error e, true, fin.2⟩
  | Except.ok _ => ⟨body, true, fin.2⟩

/-- One `urllib.request.urlopen` call for a given attempt number: `.error`
models a raised `URLError`/`HTTPError`, `.ok (status, body)` a returned
response. -/
def UrlOracle : Type := Nat → Except PyExc (Nat × String)

/-- Trace of the API retry loop of `retrieve_labels`: the final `data`
value (or the exception that propagated), the attempt numbers at which
`urlopen` was called, and the `time.sleep` durations performed. -/
structure ApiLoopOut where
  data : Except PyExc (Option String)
  attempts : List Nat
  sleeps : List Nat
deriving DecidableEq, Repr

/-- The `while cur_attempt <= total_attempts` loop of `retrieve_labels`
(get_labels.py lines 70-89), recursing on the number of attempts still
allowed.  An exception from `urlopen` propagates immediately; a 200 response
stores the body and breaks; any other response increments the attempt
counter and sleeps `waitTime` seconds only when another attempt remains. -/
def labels_api_go (oracle : UrlOracle) (waitTime : Nat) :
    Nat → Nat → ApiLoopOut
  | _, 0 => ⟨Except.ok none, [], []⟩
  | curAttempt, remaining + 1 =>
    match oracle curAttempt with
    | Except.error e => ⟨Except.error e, [curAttempt], []⟩
    | Except.ok sb =>
      if sb.1 == 200 then ⟨Except.ok (some sb.2), [curAttempt], []⟩
      else
        match remaining with
        | 0 => ⟨Except.ok none, [curAttempt], []⟩
        | r + 1 =>
          let rest := labels_api_go oracle waitTime (curAttempt + 1) (r + 1)
          ⟨rest.data, curAttempt :: rest.attempts, waitTime :: rest.sleeps⟩

/-- Outcome of `retrieve_labels`: the returned label list (or the exception
that propagated), the `urlopen` attempts made, the sleeps performed, and
whether the event-payload fallback was used. -/
structure LabelsOutcome where
  result : Except PyExc (List String)
  attempts : List Nat
  sleeps : List Nat
  usedFallback : Bool
deriving DecidableEq, Repr

/-- `retrieve_labels` from get_labels.py (lines 35-111).  `oracle` models
`urllib.request.urlopen`; `parseNames` models `json.loads` of the API body
followed by the `label['name']` extraction; `eventPayloadLabels` models the
label names read from the `GITHUB_EVENT_PATH` file.  An unset or empty
`GITHUB_REF` raises `TypeError`; outside a pull-request ref the result is
the empty list; otherwise the API loop runs with `wait_time = 3` and
`total_attempts = 3` starting at attempt 1, and the fallback is used exactly
when the loop ends with no usable `data`. -/
def retrieve_labels (env : Env) (oracle : UrlOracle)
    (parseNames : String → List String) (eventPayloadLabels : List String) :
    LabelsOutcome :=
  let githubRef := getenvD env "GITHUB_REF"
  if pyIsEmpty githubRef then ⟨Except.error PyExc.typeError, [], [], false⟩
  else if !pyStartsWith githubRef "refs/pull/" then ⟨Except.ok [], [], [], false⟩
  else
    let r := labels_api_go oracle 3 1 3
    match r.data with
    | Except.error e => ⟨Except.error e, r.attempts, r.sleeps, false⟩
    | Except.ok dataOpt =>
      match dataOpt with
      | some d =>
        if !pyIsEmpty d && d != "null" then
          ⟨Except.ok (parseNames d), r.attempts, r.sleeps, false⟩
        else
          ⟨Except.ok eventPayloadLabels, r.attempts, r.sleeps, true⟩
      | none => ⟨Except.ok eventPayloadLabels, r.attempts, r.sleeps, true⟩


/-! ## Helper lemmas -/

/-- Any single message handling preserves a timeout already widened to the
reconnect value: no branch of the dispatch ever assigns a smaller timeout. -/
theorem handle_message_keeps_reconnect_timeout (env : Env) (now : Nat)
    (s : WaitState) (m : String) (h : s.timeout = re_connect_timeout) :
    (handle_message env now s m).state.timeout = re_connect_timeout := by
  unfold handle_message
  repeat' split
  all_goals first | rfl | exact h

/-- Folding the dispatch over any message trace preserves the reconnect
timeout. -/
theorem foldl_keeps_reconnect_timeout (env : Env) :
    ∀ (l : List (Nat × String)) (st : WaitState),
      st.timeout = re_connect_timeout →
      (l.foldl (fun st p => (handle_message env p.1 st p.2).state) st).timeout
        = re_connect_timeout := by
  intro l
  induction l with
  | nil => intro st h; simpa using h
  | cons p tl ih =>
    intro st h
    simp only [List.foldl_cons]
    exact ih _ (handle_message_keeps_reconnect_timeout env p.1 st p.2 h)

/-- The message loop dispatches exactly the messages it is given, in
order. -/
theorem process_loop_dispatched (env : Env) (now : Nat) :
    ∀ (msgs : List String) (s : WaitState),
      (process_loop env now s msgs).2.2.2 = msgs := by
  intro msgs
  induction msgs with
  | nil => intro s; rfl
  | cons m rest ih => intro s; simp [process_loop, ih]

/-- Each message produces a reply exactly when it is `env_state_requested`
(and then the filtered-environment JSON line), and never a file write. -/
theorem handle_message_reply_writes (env : Env) (now : Nat) (s : WaitState)
    (m : String) :
    (handle_message env now s m).reply
        = (if m == "env_state_requested" then some (env_state_reply env) else none)
    ∧ (handle_message env now s m).fileWrites = [] := by
  unfold handle_message
  repeat' split
  all_goals first
    | rfl
    | simp_all [env_state_reply, filtered_env, save_env_state, Except.toOption]

/-- The message loop's replies are exactly one filtered-environment JSON
line per `env_state_requested` message, and it performs no file writes. -/
theorem process_loop_replies (env : Env) (now : Nat) :
    ∀ (msgs : List String) (s : WaitState),
      (process_loop env now s msgs).2.1
          = ((msgs.filter (fun m => m == "env_state_requested")).map
              (fun _ => env_state_reply env))
      ∧ (process_loop env now s msgs).2.2.1 = [] := by
  intro msgs
  induction msgs with
  | nil => intro s; exact ⟨rfl, rfl⟩
  | cons m rest ih =>
    intro s
    obtain ⟨hr, hw⟩ := handle_message_reply_writes env now s m
    obtain ⟨ihr, ihw⟩ := ih (handle_message env now s m).state
    cases hb : (m == "env_state_requested") <;>
      simp [process_loop, hr, hw, hb, ihr, ihw, List.filter_cons]

/-! ## Claim theorems -/

/-- C1: evaluation at the failing input.  With the force flag false, the
halt variable absent (hence not truthy), an EMPTY fetched label list (so the
halt-on-error label is NOT among the labels), and the execution-state file
present, `should_halt_for_connection` nevertheless returns true: the source
guard `if HALT_ON_ERROR_LABEL and os.path.exists(...)` tests the truthiness
of the constant label string instead of its membership in the fetched
labels, so the state file's presence alone triggers the halt, contradicting
the claim (and the function's own log messages, which report the label as
found on the PR). -/
theorem C1_state_file_alone_halts :
    should_halt_for_connection false [] [] true = Except.ok true := by decide

/-- C2: every execution of the wait entry point runs the cleanup finalizer:
for any outcome of the halt decision (including a raised exception), any
outcome of the server run, and whether or not the state directory exists,
the `finally` block runs, the state directory is gone afterwards, and the
body's outcome is returned unchanged — in particular a missing directory
raises nothing, because the `FileNotFoundError` from `rmtree` is caught. -/
theorem C2_cleanup_invariant (haltDecision : Except PyExc Bool)
    (serverRun : Except PyExc Unit) (stateDirExists : Bool) :
    (wait_main (wait_main_body haltDecision serverRun) stateDirExists).cleanupRan = true
    ∧ (wait_main (wait_main_body haltDecision serverRun) stateDirExists).stateDirRemains = false
    ∧ (wait_main (wait_main_body haltDecision serverRun) stateDirExists).result
        = wait_main_body haltDecision serverRun := by
  cases stateDirExists <;>
    simp [wait_main, delete_state_data, rmtree]

/-- C3: the timeout ratchet.  Once a `connection_established` message has
been handled, the current timeout equals the reconnect value, and handling
any further trace of messages (keep-alives, closes, env-state requests,
unknown messages, at arbitrary times) never changes it back. -/
theorem C3_timeout_ratchet (env : Env) (s : WaitState) (now : Nat)
    (rest : List (Nat × String)) :
    (rest.foldl (fun st p => (handle_message env p.1 st p.2).state)
        (handle_message env now s "connection_established").state).timeout
      = re_connect_timeout := by
  apply foldl_keeps_reconnect_timeout
  rfl

/-- C4 counterexample: the per-connection handler performs a single
`read(1024)`, so a message delivered in a second chunk is never dispatched.
The peer sends `keep_alive` and then `connection_closed` before closing;
the full byte stream contains both messages, yet only `keep_alive` is
dispatched and the stop event is never set. -/
theorem C4_second_delivery_lost :
    messages_of (String.join ["keep_alive\n", "connection_closed\n"])
        = ["keep_alive", "connection_closed"]
    ∧ (process_messages [] 0 (initWaitState 0)
        ["keep_alive\n", "connection_closed\n"]).dispatched = ["keep_alive"]
    ∧ (process_messages [] 0 (initWaitState 0)
        ["keep_alive\n", "connection_closed\n"]).state.stopEventSet = false := by
  decide

/-- C4 amended: for every accepted connection the server performs exactly
one read of at most 1024 bytes — the first delivered chunk, truncated — and
dispatches exactly the newline-delimited messages contained in that single
read, in order, before closing the connection; bytes delivered later or
beyond the 1024-byte bound are never handled. -/
theorem C4_single_read_dispatch (env : Env) (now : Nat) (s : WaitState)
    (chunks : List String) :
    (process_messages env now s chunks).dispatched = messages_of (read1024 chunks)
    ∧ (process_messages env now s chunks).closed = true := by
  exact ⟨process_loop_dispatched env now _ s, rfl⟩

/-- C5: evaluation showing the denylist validation is inverted and the
all-or-nothing discard absent.  A value containing characters outside
letters, digits, underscores, and commas (`"BAD-NAME!"`) is added to the
final denylist with NO error logged, while a value containing only allowed
characters (`"FOO,BAR"`) has the invalid-characters error logged yet all of
its names are still added — the opposite of the claim on both sides. -/
theorem C5_denylist_validation_inverted :
    add_denylist_vars_from_env [(ENV_DENYLIST_VAR_NAME, "BAD-NAME!")]
        ENV_DENYLIST_VAR_NAME VARS_DENYLIST
      = (["BAD-NAME!", "GITHUB_TOKEN"], false)
    ∧ add_denylist_vars_from_env [(ENV_DENYLIST_VAR_NAME, "FOO,BAR")]
        ENV_DENYLIST_VAR_NAME VARS_DENYLIST
      = (["BAR", "FOO", "GITHUB_TOKEN"], true) := by
  decide

/-- C6 counterexample: a non-permission write failure (a missing target
path, raising `FileNotFoundError`) during Save is NOT converted to a
warning: both `save_current_execution_info` and `save_env_state` let the
exception propagate to the caller, and neither logs any warning. -/
theorem C6_write_failure_propagates :
    (save_current_execution_info (fun _ => Except.error PyExc.fileNotFoundError)
        (some "make test") (some "/work") (some [])
        "/gone/.workflow_state/execution_state.json").result
      = Except.error PyExc.fileNotFoundError
    ∧ (save_current_execution_info (fun _ => Except.error PyExc.fileNotFoundError)
        (some "make test") (some "/work") (some [])
        "/gone/.workflow_state/execution_state.json").warnings = []
    ∧ (save_env_state (fun _ => Except.error PyExc.fileNotFoundError) []
        (some "/gone/.workflow_state/env.txt") VARS_DENYLIST true).result
      = Except.error PyExc.fileNotFoundError
    ∧ (save_env_state (fun _ => Except.error PyExc.fileNotFoundError) []
        (some "/gone/.workflow_state/env.txt") VARS_DENYLIST true).warnings = [] := by
  decide

/-- C6 amended: the Save operations contain no exception handling at all —
every write failure, permission-related or not, propagates to the caller as
the raised exception, unchanged, and no warning is ever logged (so a calling
job IS aborted by such a failure unless it protects itself). -/
theorem C6_write_errors_propagate (fsWrite : FsWrite) (e : PyExc) (p : String)
    (sc d : Option String) (es : Option (List (String × String))) (env : Env)
    (dl : List String) (ck : Bool) (h : fsWrite p = Except.error e) :
    ((save_current_execution_info fsWrite sc d es p).result = Except.error e
      ∧ (save_current_execution_info fsWrite sc d es p).warnings = [])
    ∧ ((save_env_state fsWrite env (some p) dl ck).result = Except.error e
      ∧ (save_env_state fsWrite env (some p) dl ck).warnings = []) := by
  refine ⟨⟨?_, ?_⟩, ⟨?_, ?_⟩⟩ <;>
    simp [save_current_execution_info, save_env_state, h]

/-- C6 amended, witness at a concrete failing file layer. -/
theorem C6_write_errors_propagate_witness :
    ((save_current_execution_info (fun _ => Except.error PyExc.valueError)
        none none none "/p").result = Except.error PyExc.valueError
      ∧ (save_current_execution_info (fun _ => Except.error PyExc.valueError)
        none none none "/p").warnings = [])
    ∧ ((save_env_state (fun _ => Except.error PyExc.valueError) []
        (some "/p") [] false).result = Except.error PyExc.valueError
      ∧ (save_env_state (fun _ => Except.error PyExc.valueError) []
        (some "/p") [] false).warnings = []) :=
  C6_write_errors_propagate (fun _ => Except.error PyExc.valueError)
    PyExc.valueError "/p" none none none [] [] false rfl

/-- C7 counterexample: with the force flag false, the halt variable absent,
no labels, and no execution-state file — none of the five halt conditions —
`should_halt_for_connection` does not return false: it raises `TypeError`,
because `int(os.getenv("GITHUB_RUN_ATTEMPT"))` is evaluated on `None` when
the retry-attempt variable is absent. -/
theorem C7_missing_run_attempt_raises :
    should_halt_for_connection false [] [] false = Except.error PyExc.typeError := by
  decide

/-- C7 amended: when none of the five halt conditions applies AND the
retry-attempt variable `GITHUB_RUN_ATTEMPT` is present with an integer
value, `should_halt_for_connection` returns false normally; totality fails
only for an absent (or non-integer) retry-attempt variable. -/
theorem C7_no_halt_returns_false (env : Env) (labels : List String) (n : Int)
    (h1 : is_true_like_env_var env "HALT_DISPATCH_INPUT" = false)
    (h2 : labels.contains HALT_ALWAYS_LABEL = false)
    (h3 : pyIntOfEnv (getenv env "GITHUB_RUN_ATTEMPT") = Except.ok n)
    (h4 : n > 1 → labels.contains HALT_ON_RETRY_LABEL = false) :
    should_halt_for_connection false env labels false = Except.ok false := by
  have h2m : HALT_ALWAYS_LABEL ∉ labels := by simpa using h2
  by_cases hn : n > 1
  · have h4m : HALT_ON_RETRY_LABEL ∉ labels := by simpa using h4 hn
    simp [should_halt_for_connection, h1, h2m, h3, h4m]
  · simp [should_halt_for_connection, h1, h2m, h3, hn]

/-- C7 amended, witness: first run attempt, no labels, nothing requesting a
halt. -/
theorem C7_no_halt_returns_false_witness :
    should_halt_for_connection false [("GITHUB_RUN_ATTEMPT", "1")] [] false
      = Except.ok false :=
  C7_no_halt_returns_false [("GITHUB_RUN_ATTEMPT", "1")] [] 1 (by decide)
    (by decide) (by decide) (fun h => absurd h (by decide))

/-- C8: for every sequence of messages handled on an accepted connection,
the server's replies are exactly one newline-terminated JSON object — the
current environment with the denylist applied — per `env_state_requested`
message; no file write is performed (the save logic runs with no output
path), and the connection is closed at the end of the handler. -/
theorem C8_env_state_exchange (env : Env) (now : Nat) (s : WaitState)
    (chunks : List String) :
    (process_messages env now s chunks).replies
        = ((messages_of (read1024 chunks)).filter
            (fun m => m == "env_state_requested")).map
            (fun _ => env_state_reply env)
    ∧ (process_messages env now s chunks).fileWrites = []
    ∧ (process_messages env now s chunks).closed = true := by
  obtain ⟨hr, hw⟩ := process_loop_replies env now (messages_of (read1024 chunks)) s
  exact ⟨hr, hw, rfl⟩

/-- C9 counterexample: a transient remote failure that raises (the behavior
of `urllib.request.urlopen` for connection errors and HTTP error statuses)
escapes `retrieve_labels` from the very first attempt: no retry is made, no
backoff sleep happens, and the event-payload fallback is never consulted. -/
theorem C9_raised_failure_escapes :
    (retrieve_labels [("GITHUB_REF", "refs/pull/1/merge")]
        (fun _ => Except.error PyExc.urlError) (fun _ => []) ["fallback-label"])
      = ⟨Except.error PyExc.urlError, [1], [], false⟩ := by
  decide

/-- C9 amended: the retry-and-fallback path exists only for requests that
RETURN a non-200 response without raising: in that case `retrieve_labels`
makes exactly 3 attempts with a fixed 3-second sleep between consecutive
attempts and then falls back to the event-payload labels; a raised request
failure instead escapes to the caller on the first attempt. -/
theorem C9_non200_retries_and_falls_back (oracle : UrlOracle)
    (parseNames : String → List String) (eventLabels : List String)
    (h : ∀ k, ∃ st b, oracle k = Except.ok (st, b) ∧ (st == 200) = false) :
    retrieve_labels [("GITHUB_REF", "refs/pull/1/merge")] oracle parseNames
        eventLabels
      = ⟨Except.ok eventLabels, [1, 2, 3], [3, 3], true⟩ := by
  obtain ⟨s1, b1, ho1, hs1⟩ := h 1
  obtain ⟨s2, b2, ho2, hs2⟩ := h 2
  obtain ⟨s3, b3, ho3, hs3⟩ := h 3
  have hg1 : pyIsEmpty (getenvD [("GITHUB_REF", "refs/pull/1/merge")] "GITHUB_REF")
      = false := by decide
  have hg2 : pyStartsWith (getenvD [("GITHUB_REF", "refs/pull/1/merge")] "GITHUB_REF")
      "refs/pull/" = true := by decide
  simp [retrieve_labels, labels_api_go, ho1, ho2, ho3, hs1, hs2, hs3, hg1, hg2]

/-- C9 amended, witness: every attempt answers with HTTP 500. -/
theorem C9_non200_retries_and_falls_back_witness :
    retrieve_labels [("GITHUB_REF", "refs/pull/1/merge")]
        (fun _ => Except.ok (500, "")) (fun _ => []) ["fallback-label"]
      = ⟨Except.ok ["fallback-label"], [1, 2, 3], [3, 3], true⟩ :=
  C9_non200_retries_and_falls_back (fun _ => Except.ok (500, ""))
    (fun _ => []) ["fallback-label"]
    (fun _ => ⟨500, "", rfl, by decide⟩)

/-- C10: for every non-empty `--out-dir` override (the empty string is
falsy to the `args.out_dir or utils.STATE_OUT_DIR` resolution and therefore
no override at all), `save_all_info` writes the env file into the override
directory but writes the structured execution-state file at the fixed
default `STATE_INFO_PATH` under `$HOME/.workflow_state` (the `out_path`
argument of `save_current_execution_info` is simply not passed), so the two
files can land in different directories. -/
theorem C10_exec_state_path_fixed (outDir : String) (env : Env)
    (home cwd : String) (sc ed : Option String) (dl : Option String)
    (h : pyIsEmpty outDir = false) :
    ((save_all_info (fun _ => Except.ok ()) env home cwd
        ⟨sc, ed, true, dl, some outDir⟩).writes.map Prod.fst)
      = [joinPath outDir STATE_ENV_FILENAME, STATE_INFO_PATH home] := by
  simp [save_all_info, pyOrStr, h, save_env_state, save_current_execution_info]

/-- C10, witness at a concrete override directory. -/
theorem C10_exec_state_path_fixed_witness :
    ((save_all_info (fun _ => Except.ok ()) [] "/home/u" "/cwd"
        ⟨none, none, true, none, some "/tmp/override"⟩).writes.map Prod.fst)
      = [joinPath "/tmp/override" STATE_ENV_FILENAME, STATE_INFO_PATH "/home/u"] :=
  C10_exec_state_path_fixed "/tmp/override" [] "/home/u" "/cwd" none none none
    (by decide)
